import Mathlib

/-!
Verification development for the OLX → Poli webhook relay.

The definitions below are a shallow embedding of the repository's source:
the webhook-handler variant of src/index.js at lines 184-716 (the variant
the claims cite: its dedup block at 532-539, operator assignment at
558-599, retry helpers at 298-327, template selection at 431-471, name
check at 400-409, cooldown at 605-616, contact creation form at 628-653),
plus the minute-based business-hours window test of
src/unnamed/part_001 (`parseHm` / `isWithinBusinessSchedule`,
lines 192-212 of that file).

Modelling conventions for JavaScript values:
  - `null` / `undefined` are `Option.none`; JS truthiness is modelled
    explicitly (`""` and `0` are falsy).
  - JS numbers occurring here are non-negative integers, modelled as `Nat`
    (`Number("")` and `Number(<non-digits>)`, i.e. NaN, are modelled as `0`,
    which is falsy exactly like NaN in every guard of this program).
  - remote calls are oracles: their outcomes are inputs of the embedding
    (`Except JsError _`), and the wall clock / `Math.random` draws are
    likewise inputs.
  - `Map` objects are association lists with first-match lookup.
-/

namespace OlxPoli

/-- JS truthiness of a nullable string: null, undefined and "" are falsy. -/
def truthyStr : Option String → Bool
  | none => false
  | some s => !(s == "")

/-- JS truthiness of a nullable number: null, undefined and 0 are falsy
(0 also stands for NaN, see the module conventions). -/
def truthyNum : Option Nat → Bool
  | none => false
  | some n => !(n == 0)

/-- The JS chain `a || b || null` on nullable numbers: the first truthy
operand, else null. -/
def jsOrNum (a b : Option Nat) : Option Nat :=
  if truthyNum a then a else if truthyNum b then b else none

/-- The JS chain `a ?? b` (nullish coalescing) on nullable values. -/
def jsNullish (a b : Option α) : Option α :=
  match a with
  | some x => some x
  | none => b

/-- The JS pattern `x || ""` for a nullable string field. -/
def jsOrEmpty : Option String → String
  | some s => s
  | none => ""

/-- Split a character list at every character satisfying `p`, keeping
empty pieces — the semantics of JS `String.prototype.split` with a
single-character separator (and of `\s` when `p` is whitespace). Stated
on `List Char` so that all evaluation is by plain structural recursion. -/
def splitChars (p : Char → Bool) : List Char → List (List Char)
  | [] => [[]]
  | c :: cs =>
    match splitChars p cs with
    | [] => [[]]
    | w :: ws => if p c then [] :: w :: ws else (c :: w) :: ws

/-- JS `s.split(sep)` for a one-character separator. -/
def strSplitOnChar (sep : Char) (s : String) : List String :=
  (splitChars (fun c => c == sep) s.toList).map String.mk

/-- JS split on whitespace characters. -/
def strSplitWs (s : String) : List String :=
  (splitChars Char.isWhitespace s.toList).map String.mk

/-- JS `parts.join(sep)`. -/
def strIntercalate (sep : String) : List String → String
  | [] => ""
  | [x] => x
  | x :: xs => x ++ sep ++ strIntercalate sep xs

/-- JS `s.toLowerCase()` on the ASCII range this program handles. -/
def strToLower (s : String) : String :=
  String.mk (s.toList.map Char.toLower)

/-- JS `s.toUpperCase()` on the ASCII range this program handles. -/
def strToUpper (s : String) : String :=
  String.mk (s.toList.map Char.toUpper)

/-- JS `s.includes(c)` for a single character. -/
def strContains (s : String) (c : Char) : Bool :=
  s.toList.contains c

/-- The JS `Number(s)` conversion restricted to this program's inputs:
digit strings evaluate to their value, `""` to 0 (as in JS), and
non-numeric input (NaN in JS) is modelled as 0. -/
def jsToNum (s : String) : Nat :=
  if s.toList.all Char.isDigit then
    s.toList.foldl (fun acc c => acc * 10 + (c.toNat - 48)) 0
  else 0

/-- The JS `String(x).replace(/\D/g, "")` digit filter used on phones. -/
def onlyDigits (s : String) : String :=
  String.mk (s.toList.filter Char.isDigit)

/-- The JS normalization `t.replace(/\s+/g, " ").trim()`: collapse every
whitespace run to one space and strip the ends, i.e. join the maximal
non-whitespace runs with single spaces. -/
def normWs (s : String) : String :=
  strIntercalate " " ((strSplitWs s).filter (fun t => !(t == "")))

/-- The JS `String(x).padStart(n, c)`: left-pad to length `n` with `c`
(unchanged when already at least that long). -/
def padStart (s : String) (n : Nat) (c : Char) : String :=
  if n ≤ s.length then s else String.mk (List.replicate (n - s.length) c) ++ s

/-- Embeds needNameUpdate (src/index.js:400-409): false on empty input or
exact equality, else all-caps / all-lower / whitespace-normalized
difference. -/
def needNameUpdate (current desired : String) : Bool :=
  if current == "" || desired == "" then false
  else if current == desired then false
  else
    let c := normWs current
    let d := normWs desired
    let isAllCaps := c == strToUpper c
    let isAllLower := c == strToLower c
    isAllCaps || isAllLower || !(c == d)

/-- The default NAME_NORMALIZE_EXCEPTIONS list (src/index.js:355). -/
def nameNormalizeExceptions : List String :=
  ["da", "de", "do", "das", "dos", "e"]

/-- The regex test `/^[A-Z]{2,4}$/` of capitalizePart (src/index.js:385). -/
def isShortAcronym (part : String) : Bool :=
  2 ≤ part.length && part.length ≤ 4 && part.toList.all (fun c => 'A' ≤ c && c ≤ 'Z')

/-- Embeds cap (src/index.js:395-398): lowercase, then uppercase the first
character. -/
def cap (s : String) : String :=
  match (strToLower s).toList with
  | [] => ""
  | c :: rest => String.mk (c.toUpper :: rest)

/-- The apostrophe character, written by code point. -/
def apos : Char := Char.ofNat 39

/-- Embeds capitalizePart (src/index.js:383-393): keep short all-caps
acronyms, capitalize around apostrophes, else `cap`. -/
def capitalizePart (part : String) : String :=
  if part == "" then part
  else if isShortAcronym part then part
  else if strContains part apos then
    strIntercalate apos.toString ((strSplitOnChar apos part).map cap)
  else cap part

/-- Embeds toTitleCasePtBr (src/index.js:360-381): title case with minor
words kept lowercase when neither first nor last, and hyphen parts
capitalized separately. -/
def toTitleCasePtBr (raw : String) : String :=
  let cleaned := normWs raw
  if cleaned == "" then cleaned
  else
    let words := strSplitOnChar ' ' cleaned
    let n := words.length
    let result := words.mapIdx (fun idx w =>
      let lower := strToLower w
      if 0 < idx ∧ idx < n - 1 ∧ nameNormalizeExceptions.contains lower then lower
      else if strContains w '-' then
        strIntercalate "-" ((strSplitOnChar '-' w).map capitalizePart)
      else capitalizePart w)
    strIntercalate " " result

/-- Embeds parseHm (src/unnamed/part_001:192-195): `"HH:MM"` to minutes,
the minute part defaulting to "0" when missing. -/
def parseHm (s : String) : Nat :=
  match strSplitOnChar ':' s with
  | [] => 0
  | [h] => jsToNum h * 60 + jsToNum "0"
  | h :: m :: _ => jsToNum h * 60 + jsToNum m

/-- Embeds isWithinBusinessSchedule (src/unnamed/part_001:202-212) with the
clock injected: closed when the weekday has no window; equal bounds mean
always open; `start < end` is a plain window; `start > end` wraps
midnight. -/
def isWithinBusinessSchedule (schedule : Nat → Option (String × String))
    (dow nowMin : Nat) : Bool :=
  match schedule dow with
  | none => false
  | some conf =>
    let s := parseHm conf.1
    let e := parseHm conf.2
    if s = e then true
    else if s < e then decide (s ≤ nowMin) && decide (nowMin < e)
    else decide (s ≤ nowMin) || decide (nowMin < e)

/-- Result shape of selectTemplateForNow. -/
structure TemplateSel where
  dentroHorario : Bool
  chosenTemplate : Option String
  deriving Repr, DecidableEq

/-- The `dentroHorario` switch of selectTemplateForNow
(src/index.js:433-455): Sunday closed, Mon-Fri 9-20h, Sat 9-13h (any
other weekday value keeps the initial false). -/
def withinBusinessHours (hh dow : Nat) : Bool :=
  if dow = 0 then false
  else if 1 ≤ dow ∧ dow ≤ 5 then decide (9 ≤ hh) && decide (hh < 20)
  else if dow = 6 then decide (9 ≤ hh) && decide (hh < 13)
  else false

/-- Embeds selectTemplateForNow (src/index.js:431-471) with the clock and
the random draw injected: in hours a template is picked from the pool at
`randIdx` (the value of `Math.floor(Math.random() * pool.length)`), or
null when the pool is empty; out of hours the configured off-hours id is
returned. -/
def selectTemplateForNow (templateIdsInHours : List String)
    (offHoursTemplateId : Option String) (hh dow randIdx : Nat) : TemplateSel :=
  let dentroHorario := withinBusinessHours hh dow
  let chosenTemplate :=
    if dentroHorario then
      if 0 < templateIdsInHours.length then templateIdsInHours[randIdx]?
      else none
    else offHoursTemplateId
  { dentroHorario := dentroHorario, chosenTemplate := chosenTemplate }

/-- The observable shape of an axios error: the optional HTTP status of
`err?.response?.status` and the optional network error code `err?.code`. -/
structure JsError where
  status : Option Nat
  code : Option String
  deriving Repr, DecidableEq

/-- Embeds isRetryable (src/index.js:298-303): any 5xx status is
retryable, otherwise the code must be one of the transient network
classes. -/
def isRetryable (err : JsError) : Bool :=
  if (match err.status with
      | some status => decide (500 ≤ status) && decide (status ≤ 599)
      | none => false) then
    true
  else
    match err.code with
    | some code =>
      ["ECONNRESET", "ETIMEDOUT", "ENOTFOUND", "EAI_AGAIN", "ECONNABORTED"].contains code
    | none => false

/-- The fixed backoff schedule of postWithRetry (src/index.js:308). -/
def delays : List Nat := [250, 1000, 4000]

/-- Observable outcome of a retried POST/PUT: how many attempts ran, the
sleeps performed between them, and the final result (the thrown
`lastErr` is `none` when the loop never ran). -/
structure RetryOutcome (α : Type) where
  attempts : Nat
  sleeps : List Nat
  result : Except (Option JsError) α
  deriving Repr

/-- The loop body of postWithRetry (src/index.js:305-327). `attempt` is
the number of attempts already made, `fuel` is `maxRetries - attempt`
(the loop guard `attempt < MAX_RETRIES`), `upstream n` is the outcome of
the n-th attempt (1-based), and the slept delay after a failed attempt
`n` is `delays[n - 1] || 4000`. -/
def retryAux (upstream : Nat → Except JsError α) (maxRetries : Nat) :
    Nat → Nat → List Nat → Option JsError → RetryOutcome α
  | attempt, 0, sleeps, lastErr => ⟨attempt, sleeps, .error lastErr⟩
  | attempt, fuel + 1, sleeps, _ =>
    match upstream (attempt + 1) with
    | .ok v => ⟨attempt + 1, sleeps, .ok v⟩
    | .error err =>
      if isRetryable err && decide (attempt + 1 < maxRetries) then
        retryAux upstream maxRetries (attempt + 1) fuel
          (sleeps ++ [delays.getD attempt 4000]) (some err)
      else ⟨attempt + 1, sleeps, .error (some err)⟩

/-- Embeds postWithRetry (src/index.js:305-327) over an upstream oracle. -/
def postWithRetry (maxRetries : Nat) (upstream : Nat → Except JsError α) :
    RetryOutcome α :=
  retryAux upstream maxRetries 0 maxRetries [] none

/-- One entry of the management API's user list, as consumed by
getServiceAvailableOperatorIds. -/
structure AvailUser where
  id : Nat
  available_service : Option Nat
  deriving Repr, DecidableEq

/-- Embeds getServiceAvailableOperatorIds (src/index.js:256-280) over the
fetch oracle: on fetch failure, or when the body has no `data` array
(`.ok none`), the empty set is returned; otherwise the stringified ids of
the users whose `available_service` equals 1. -/
def getServiceAvailableOperatorIds
    (fetch : Except JsError (Option (List AvailUser))) : List String :=
  match fetch with
  | .error _ => []
  | .ok none => []
  | .ok (some users) =>
    (users.filter (fun u => u.available_service == some 1)).map (fun u => toString u.id)

/-- Lexicographic comparison of character lists by code point — the order
of JS `Array.prototype.sort()` on these ASCII id strings. -/
def charListLe : List Char → List Char → Bool
  | [], _ => true
  | _ :: _, [] => false
  | a :: as, b :: bs =>
    if a.toNat < b.toNat then true
    else if b.toNat < a.toNat then false
    else charListLe as bs

/-- String comparison backing the sort. -/
def strLe (a b : String) : Bool :=
  charListLe a.toList b.toList

/-- Insertion of one element into a sorted list. -/
def insertSorted (x : String) : List String → List String
  | [] => [x]
  | y :: ys => if strLe x y then x :: y :: ys else y :: insertSorted x ys

/-- The JS `array.sort()` on string arrays (insertion sort; only the
resulting order matters). -/
def sortStrings : List String → List String
  | [] => []
  | x :: xs => insertSorted x (sortStrings xs)

/-- Embeds getAllOperators (src/index.js:283-285): the configured roster,
sorted (JS `Array.prototype.sort()`, lexicographic on these id strings). -/
def getAllOperators (operatorIds : List String) : List String :=
  sortStrings operatorIds

/-- Embeds the queue pick of the webhook handler (src/index.js:586-591):
when the candidate list is non-empty, choose index `cursor % length` and
advance the cursor; an empty list chooses nobody and leaves the cursor. -/
def pickFromQueue (pool : List String) (cursor : Nat) : Option String × Nat :=
  if 0 < pool.length then (pool[cursor % pool.length]?, cursor + 1)
  else (none, cursor)

/-- The stream of picks produced by repeated `pickFromQueue` steps on one
queue with a fixed candidate list (M sequential assignments with the
cursor incremented each time). -/
def rrSequence (pool : List String) : Nat → Nat → List (Option String)
  | _, 0 => []
  | cursor, M + 1 =>
    (pickFromQueue pool cursor).1 :: rrSequence pool (pickFromQueue pool cursor).2 M

/-- Lookup in a JS `Map` modelled as an association list (`map.get(k)`). -/
def mapLookup (m : List (String × α)) (k : String) : Option α :=
  (m.find? (fun e => e.1 == k)).map (fun e => e.2)

/-- `map.set(k, v)`: the new binding shadows and replaces any old one. -/
def mapSet (m : List (String × α)) (k : String) (v : α) : List (String × α) :=
  (k, v) :: m.filter (fun e => !(e.1 == k))

/-- `map.delete(k)`. -/
def mapDelete (m : List (String × α)) (k : String) : List (String × α) :=
  m.filter (fun e => !(e.1 == k))

/-- Status of an idempotency record (src/index.js:539,616: the string
literals "inflight" and "done"). -/
inductive IdemStatus where
  | inflight
  | done
  deriving Repr, DecidableEq

/-- An entry of the `recentLeads` map: `{ ts, status }`. -/
structure IdemRecord where
  ts : Nat
  status : IdemStatus
  deriving Repr, DecidableEq

/-- The mutable in-memory state of the service: the two anti-dup maps
(src/index.js:491-492) and the two round-robin cursors
(src/index.js:252-253). -/
structure ServerState where
  recentLeads : List (String × IdemRecord)
  recentSends : List (String × Nat)
  generalRoundRobinIndex : Nat
  sorocabaRoundRobinIndex : Nat
  deriving Repr

/-- Outcome of the dedup block. -/
inductive DedupDecision where
  | dupDone
  | inflightBusy
  | accepted
  deriving Repr, DecidableEq

/-- Embeds the dedup consultation (src/index.js:534-538): a fresh `done`
record short-circuits as a duplicate, an `inflight` record (of any age)
as in-processing, anything else proceeds. -/
def dedupCheck (recentLeads : List (String × IdemRecord)) (idemKey : String)
    (now ttl : Nat) : DedupDecision :=
  match mapLookup recentLeads idemKey with
  | some seen =>
    if seen.status = .done ∧ now - seen.ts < ttl then .dupDone
    else if seen.status = .inflight then .inflightBusy
    else .accepted
  | none => .accepted

/-- The raw webhook body fields the payload normalizer reads
(src/index.js:474-488); every field is nullable. -/
structure RawBody where
  name : Option String := none
  leadName : Option String := none
  email : Option String := none
  phoneNumber : Option String := none
  phone : Option String := none
  clientListingId : Option String := none
  listing : Option String := none
  clientListingCode : Option String := none
  cod : Option String := none
  originLeadId : Option String := none
  leadId : Option String := none
  deriving Repr

/-- The normalized lead payload. -/
structure LeadPayload where
  name : Option String
  email : Option String
  phoneDigits : Option String
  propertyCode : Option String
  originLeadId : Option String
  deriving Repr, DecidableEq

/-- Embeds normalizeLeadPayload (src/index.js:474-488): `??`-chains over
alternate keys, digits-only phone (null stays null, and a falsy raw phone
yields null), and title-cased name when normalization is enabled and the
raw name truthy. -/
def normalizeLeadPayload (nameNormalizeEnabled : Bool) (body : RawBody) :
    LeadPayload :=
  let rawName := jsNullish body.name body.leadName
  let email := body.email
  let rawPhone := jsNullish body.phoneNumber body.phone
  let phoneDigits :=
    match rawPhone with
    | some p => if p == "" then none else some (onlyDigits p)
    | none => none
  let propertyCode :=
    jsNullish body.clientListingId
      (jsNullish body.listing (jsNullish body.clientListingCode body.cod))
  let originLeadId := jsNullish body.originLeadId body.leadId
  let name :=
    match rawName with
    | some n => if nameNormalizeEnabled ∧ ¬(n = "") then some (toTitleCasePtBr n) else some n
    | none => none
  { name := name, email := email, phoneDigits := phoneDigits,
    propertyCode := propertyCode, originLeadId := originLeadId }

/-- The contact details the handler reads from getContactDetails
(src/index.js:543,546-548,558,602). A null details object would raise a
TypeError at the `contactDetails.user_id` access and end in the same
catch as any other failure, so only the non-null shape is modelled. -/
structure ContactDetails where
  name : Option String := none
  cpf : Option String := none
  email : Option String := none
  user_id : Option Nat := none
  userId : Option Nat := none
  firstExternalChannel : Option Nat := none
  deriving Repr, DecidableEq

/-- The fields of a send_template response body the adapter inspects
(src/index.js:702-705). -/
structure SendBody where
  success : Option Bool := none
  send : Option Bool := none
  deriving Repr, DecidableEq

/-- The environment of one handler invocation: the injected clock and
random draw, and the outcome oracles of the five remote calls. -/
structure Env where
  hh : Nat
  dow : Nat
  randIdx : Nat
  now : Nat
  now2 : Nat
  ensureContact : Except JsError Nat
  getDetails : Except JsError ContactDetails
  updateFields : Except JsError Unit
  availabilityFetch : Except JsError (Option (List AvailUser))
  assignOp : Except JsError Unit
  sendTemplate : Except JsError SendBody

/-- The startup configuration the handler consults (src/index.js:211-253). -/
structure Config where
  operatorIds : List String
  customerId : String
  channelId : Nat
  operatorNamesMap : List (String × String)
  sorocabaPropertyCodes : List String
  sorocabaOperatorIds : List String
  templateIdsInHours : List String
  offHoursTemplateId : Option String
  idempotencyTtlMs : Nat
  sendCooldownMs : Nat
  nameNormalizeEnabled : Bool
  forceChannelId : Bool
  deriving Repr

/-- The guard of the configuration check (src/index.js:512): any falsy
element among roster, customer id, channel id or name map rejects the
request with a 500. -/
def configMissing (cfg : Config) : Bool :=
  cfg.operatorIds.length == 0 || cfg.customerId == "" || cfg.channelId == 0 ||
    cfg.operatorNamesMap.length == 0

/-- Result of the operator-selection block. -/
structure OpSelection where
  assignedOperatorId : Option Nat
  generalIdx : Nat
  sorocabaIdx : Nat
  deriving Repr

/-- Embeds the operator-selection block (src/index.js:560-592), entered
only for contacts with no assigned operator. Sorocaba leads take the
regional queue directly (its cursor always advances; an empty regional
roster yields NaN in JS, modelled as the equally falsy 0). General leads
filter the sorted roster by live availability, fall back to the full
roster when the filtered list is empty, and pick round-robin. -/
def selectOperatorForLead (cfg : Config) (availableOps : List String)
    (propertyCode : String) (generalIdx sorocabaIdx : Nat) : OpSelection :=
  if cfg.sorocabaPropertyCodes.contains propertyCode then
    let operatorIndex := sorocabaIdx % cfg.sorocabaOperatorIds.length
    { assignedOperatorId := some (jsToNum (cfg.sorocabaOperatorIds.getD operatorIndex "")),
      generalIdx := generalIdx, sorocabaIdx := sorocabaIdx + 1 }
  else
    let allOperators := getAllOperators cfg.operatorIds
    let trulyAvailable :=
      sortStrings (allOperators.filter (fun id => availableOps.contains id))
    let operatorsToChooseFrom :=
      if 0 < trulyAvailable.length then trulyAvailable else allOperators
    let pick := pickFromQueue operatorsToChooseFrom generalIdx
    { assignedOperatorId := pick.1.map jsToNum,
      generalIdx := pick.2, sorocabaIdx := sorocabaIdx }

/-- The externally observable calls a handler invocation made. -/
structure HandlerTrace where
  createContactCalled : Bool := false
  updateCalled : Bool := false
  updateFieldsSent : List (String × String) := []
  selectionPolicyInvoked : Bool := false
  assignCalled : Bool := false
  assignedTo : Option Nat := none
  dispatchCalled : Bool := false
  dispatchedOperator : Option Nat := none
  deriving Repr, DecidableEq

/-- The HTTP status, final state and call trace of one invocation. -/
structure HandlerResult where
  status : Nat
  state : ServerState
  trace : HandlerTrace
  deriving Repr

/-- The catch block of the webhook handler (src/index.js:619-624): delete
the idempotency record and answer 500. -/
def catchResult (st : ServerState) (idemKey : String) (tr : HandlerTrace) :
    HandlerResult :=
  { status := 500,
    state := { st with recentLeads := mapDelete st.recentLeads idemKey },
    trace := tr }

/-- The string a nullable template id contributes to the
`contactId:templateId` send key (JS interpolates null as "null"). -/
def jsTemplateStr : Option String → String
  | some t => t
  | none => "null"

/-- The tail of the try block (src/index.js:601-618): cooldown check on
the contact+template key against the `now` captured at entry, then the
template dispatch; a suppressed send still marks the lead done, a
successful send records the cooldown and marks the lead done, and a
rejected send (thrown, or accepted-but-flagged) reaches the catch. -/
def continueDispatch (cfg : Config) (env : Env) (st : ServerState)
    (idemKey : String) (contactId : Nat) (assignedOperatorId : Option Nat)
    (sel : TemplateSel) (tr : HandlerTrace) : HandlerResult :=
  let templateToSend := sel.chosenTemplate
  let sendKey := toString contactId ++ ":" ++ jsTemplateStr templateToSend
  let suppressed :=
    match mapLookup st.recentSends sendKey with
    | some ts => decide (env.now - ts < cfg.sendCooldownMs)
    | none => false
  if suppressed then
    { status := 200,
      state := { st with recentLeads := mapSet st.recentLeads idemKey ⟨env.now2, .done⟩ },
      trace := tr }
  else
    match env.sendTemplate with
    | .error _ =>
      catchResult st idemKey
        { tr with dispatchCalled := true, dispatchedOperator := assignedOperatorId }
    | .ok respBody =>
      if respBody.success == some false || respBody.send == some false then
        catchResult st idemKey
          { tr with dispatchCalled := true, dispatchedOperator := assignedOperatorId }
      else
        { status := 200,
          state := { st with
            recentSends := mapSet st.recentSends sendKey env.now2,
            recentLeads := mapSet st.recentLeads idemKey ⟨env.now2, .done⟩ },
          trace := { tr with dispatchCalled := true,
                             dispatchedOperator := assignedOperatorId } }

/-- The drift-reconciliation fields of the try block (src/index.js:545-556):
a `name` update when the normalizer disagrees with the stored name, a
`cpf` update when the stored cpf differs from the zero-padded property
code, and an `email` update on case-insensitive email drift. -/
def reconcileFields (cfg : Config) (contactDetails : ContactDetails)
    (name propertyCode leadEmail : String) : List (String × String) :=
  let desiredName := if cfg.nameNormalizeEnabled then toTitleCasePtBr name else name
  let needName := cfg.nameNormalizeEnabled &&
    needNameUpdate (jsOrEmpty contactDetails.name) desiredName
  let padded := padStart propertyCode 11 '0'
  let needCpf := !(jsOrEmpty contactDetails.cpf == padded)
  let needMail := !(leadEmail == "") &&
    !(strToLower (jsOrEmpty contactDetails.email) == strToLower leadEmail)
  (if needName then [("name", desiredName)] else []) ++
  (if needCpf then [("cpf", padded)] else []) ++
  (if needMail then [("email", leadEmail)] else [])

/-- The try block of the webhook handler (src/index.js:541-618): ensure
the contact, fetch its details, reconcile name/cpf/email drift, keep an
already-assigned operator (sticky) or run the selection block and assign,
then hand over to the cooldown/dispatch tail; any thrown step lands in
the catch, which releases the idempotency record. -/
def processLead (cfg : Config) (env : Env) (st : ServerState) (idemKey : String)
    (name propertyCode leadEmail : String) (sel : TemplateSel) : HandlerResult :=
  match env.ensureContact with
  | .error _ => catchResult st idemKey { createContactCalled := true }
  | .ok contactId =>
    match env.getDetails with
    | .error _ => catchResult st idemKey { createContactCalled := true }
    | .ok contactDetails =>
      let fields := reconcileFields cfg contactDetails name propertyCode leadEmail
      let tr0 : HandlerTrace :=
        { createContactCalled := true, updateCalled := !fields.isEmpty,
          updateFieldsSent := fields }
      let upd : Except JsError Unit := if fields.isEmpty then .ok () else env.updateFields
      match upd with
      | .error _ => catchResult st idemKey tr0
      | .ok _ =>
        let assigned0 := jsOrNum contactDetails.user_id contactDetails.userId
        if truthyNum assigned0 then
          continueDispatch cfg env st idemKey contactId assigned0 sel tr0
        else
          let availableOps := getServiceAvailableOperatorIds env.availabilityFetch
          let selRes := selectOperatorForLead cfg availableOps propertyCode
            st.generalRoundRobinIndex st.sorocabaRoundRobinIndex
          let st' := { st with generalRoundRobinIndex := selRes.generalIdx,
                               sorocabaRoundRobinIndex := selRes.sorocabaIdx }
          let tr1 := { tr0 with selectionPolicyInvoked := true }
          if truthyNum selRes.assignedOperatorId then
            match env.assignOp with
            | .error _ =>
              catchResult st' idemKey
                { tr1 with assignCalled := true, assignedTo := selRes.assignedOperatorId }
            | .ok _ =>
              continueDispatch cfg env st' idemKey contactId selRes.assignedOperatorId sel
                { tr1 with assignCalled := true, assignedTo := selRes.assignedOperatorId }
          else
            continueDispatch cfg env st' idemKey contactId selRes.assignedOperatorId sel tr1

/-- The fallback `email || "não informado"` (src/index.js:522). -/
def leadEmailOr (email : Option String) : String :=
  match email with
  | some e => if e == "" then "não informado" else e
  | none => "não informado"

/-- Embeds the webhook handler (src/index.js:508-625): configuration
check, payload normalization and validation, template selection, the
dedup consultation, insertion of the inflight record, and the try block. -/
def webhookHandler (cfg : Config) (env : Env) (st : ServerState)
    (body : RawBody) : HandlerResult :=
  if configMissing cfg then { status := 500, state := st, trace := {} }
  else
    let p := normalizeLeadPayload cfg.nameNormalizeEnabled body
    match p.name, p.phoneDigits, p.propertyCode with
    | some name, some phoneDigits, some propertyCode =>
      if name == "" || phoneDigits == "" || propertyCode == "" then
        { status := 400, state := st, trace := {} }
      else
        let leadEmail := leadEmailOr p.email
        let sel := selectTemplateForNow cfg.templateIdsInHours cfg.offHoursTemplateId
          env.hh env.dow env.randIdx
        let idemKey := phoneDigits ++ ":" ++ propertyCode
        match dedupCheck st.recentLeads idemKey env.now cfg.idempotencyTtlMs with
        | .dupDone => { status := 200, state := st, trace := {} }
        | .inflightBusy => { status := 202, state := st, trace := {} }
        | .accepted =>
          let st1 := { st with
            recentLeads := mapSet st.recentLeads idemKey ⟨env.now, .inflight⟩ }
          processLead cfg env st1 idemKey name propertyCode leadEmail sel
    | _, _, _ => { status := 400, state := st, trace := {} }

/-- Embeds the form built by ensureContactExists (src/index.js:628-634):
name and phone always, email when truthy, and cpf as the property code
left-padded with zeros to 11 characters when the code is truthy. -/
def ensureContactForm (name phoneDigits : String) (email : Option String)
    (propertyCode : Option String) : List (String × String) :=
  [("name", name), ("phone", phoneDigits)] ++
  (match email with
   | some e => if e == "" then [] else [("email", e)]
   | none => []) ++
  (match propertyCode with
   | some pc => if pc == "" then [] else [("cpf", padStart pc 11 '0')]
   | none => [])

/-- A concrete valid configuration for concrete evaluations. -/
def cfgA : Config :=
  { operatorIds := ["101", "102"],
    customerId := "c1",
    channelId := 5,
    operatorNamesMap := [("101", "Ana"), ("102", "Bia")],
    sorocabaPropertyCodes := ["900"],
    sorocabaOperatorIds := ["300"],
    templateIdsInHours := ["T1", "T2"],
    offHoursTemplateId := some "TOFF",
    idempotencyTtlMs := 600000,
    sendCooldownMs := 1800000,
    nameNormalizeEnabled := true,
    forceChannelId := false }

/-- A concrete environment in which every remote call succeeds and the
fetched contact already has operator 7 assigned. -/
def envA : Env :=
  { hh := 10, dow := 2, randIdx := 0,
    now := 1000, now2 := 2000,
    ensureContact := .ok 42,
    getDetails := .ok { user_id := some 7 },
    updateFields := .ok (),
    availabilityFetch := .ok (some [{ id := 101, available_service := some 1 }]),
    assignOp := .ok (),
    sendTemplate := .ok { success := some true, send := some true } }

/-- The empty server state. -/
def stEmpty : ServerState :=
  { recentLeads := [], recentSends := [], generalRoundRobinIndex := 0,
    sorocabaRoundRobinIndex := 0 }

/-- A concrete lead body (name "Ana", phone 11987654321, listing 123). -/
def bodyA : RawBody :=
  { name := some "Ana", phone := some "11987654321", cod := some "123" }

/-- The idempotency key of `bodyA`. -/
def keyA : String := "11987654321:123"

/-- A state holding a fresh done record for `keyA` (age 100ms at
`envA.now`). -/
def stDoneA : ServerState :=
  { recentLeads := [(keyA, ⟨900, IdemStatus.done⟩)], recentSends := [],
    generalRoundRobinIndex := 0, sorocabaRoundRobinIndex := 0 }

/-- A state holding an inflight record for `keyA`. -/
def stInflightA : ServerState :=
  { recentLeads := [(keyA, ⟨900, IdemStatus.inflight⟩)], recentSends := [],
    generalRoundRobinIndex := 0, sorocabaRoundRobinIndex := 0 }

end OlxPoli

namespace OlxPoli

theorem mapLookup_set_self (m : List (String × α)) (k : String) (v : α) :
    mapLookup (mapSet m k v) k = some v := by
  simp [mapLookup, mapSet]

theorem mapLookup_delete_self (m : List (String × α)) (k : String) :
    mapLookup (mapDelete m k) k = none := by
  simp only [mapLookup, mapDelete, Option.map_eq_none', List.find?_eq_none,
    List.mem_filter]
  intro x hx
  simpa using hx.2

theorem continueDispatch_createCalled (cfg : Config) (env : Env) (st : ServerState)
    (idemKey : String) (contactId : Nat) (aid : Option Nat) (sel : TemplateSel)
    (tr : HandlerTrace) :
    (continueDispatch cfg env st idemKey contactId aid sel tr).trace.createContactCalled
      = tr.createContactCalled := by
  simp only [continueDispatch, catchResult]
  (repeat' split) <;> rfl

theorem continueDispatch_status200_done (cfg : Config) (env : Env) (st : ServerState)
    (idemKey : String) (contactId : Nat) (aid : Option Nat) (sel : TemplateSel)
    (tr : HandlerTrace) :
    (continueDispatch cfg env st idemKey contactId aid sel tr).status = 200 →
    mapLookup (continueDispatch cfg env st idemKey contactId aid sel tr).state.recentLeads
      idemKey = some ⟨env.now2, IdemStatus.done⟩ := by
  simp only [continueDispatch, catchResult]
  split
  · intro _
    exact mapLookup_set_self _ _ _
  · split
    · intro h
      simp at h
    · split
      · intro h
        simp at h
      · intro _
        exact mapLookup_set_self _ _ _

set_option maxHeartbeats 1000000 in
theorem processLead_createCalled (cfg : Config) (env : Env) (st : ServerState)
    (idemKey name propertyCode leadEmail : String) (sel : TemplateSel) :
    (processLead cfg env st idemKey name propertyCode leadEmail sel).trace.createContactCalled
      = true := by
  rcases hec : env.ensureContact with e | contactId
  · simp [processLead, hec, catchResult]
  · rcases hgd : env.getDetails with e | d
    · simp [processLead, hec, hgd, catchResult]
    · simp only [processLead, hec, hgd]
      (repeat' split) <;>
        simp [catchResult, continueDispatch_createCalled]

theorem webhookHandler_reduce (cfg : Config) (env : Env) (st : ServerState)
    (body : RawBody) (nm ph pc : String) (em oid : Option String)
    (hcfg : configMissing cfg = false)
    (hnorm : normalizeLeadPayload cfg.nameNormalizeEnabled body =
      { name := some nm, email := em, phoneDigits := some ph,
        propertyCode := some pc, originLeadId := oid })
    (hnm : ¬(nm = "")) (hph : ¬(ph = "")) (hpc : ¬(pc = "")) :
    webhookHandler cfg env st body =
      (match dedupCheck st.recentLeads (ph ++ ":" ++ pc) env.now cfg.idempotencyTtlMs with
       | DedupDecision.dupDone => { status := 200, state := st, trace := {} }
       | DedupDecision.inflightBusy => { status := 202, state := st, trace := {} }
       | DedupDecision.accepted =>
         processLead cfg env
           { st with recentLeads :=
               mapSet st.recentLeads (ph ++ ":" ++ pc) ⟨env.now, IdemStatus.inflight⟩ }
           (ph ++ ":" ++ pc) nm pc (leadEmailOr em)
           (selectTemplateForNow cfg.templateIdsInHours cfg.offHoursTemplateId
             env.hh env.dow env.randIdx)) := by
  simp only [webhookHandler, hcfg, hnorm, Bool.or_eq_true, beq_iff_eq, hnm, hph, hpc,
    Bool.false_eq_true, if_false, or_self, ite_false]

set_option maxHeartbeats 1000000 in
theorem processLead_status200_done (cfg : Config) (env : Env) (st : ServerState)
    (idemKey name propertyCode leadEmail : String) (sel : TemplateSel) :
    (processLead cfg env st idemKey name propertyCode leadEmail sel).status = 200 →
    mapLookup (processLead cfg env st idemKey name propertyCode leadEmail sel).state.recentLeads
      idemKey = some ⟨env.now2, IdemStatus.done⟩ := by
  rcases hec : env.ensureContact with e | contactId
  · intro h
    simp [processLead, hec, catchResult] at h
  · rcases hgd : env.getDetails with e | d
    · intro h
      simp [processLead, hec, hgd, catchResult] at h
    · simp only [processLead, hec, hgd]
      (repeat' split) <;>
        first
          | exact continueDispatch_status200_done _ _ _ _ _ _ _ _
          | (intro h; simp [catchResult] at h)

/-- C1: per lead key, the idempotency store admits at most one processing
pass within the TTL. A fresh done record answers 200 as a no-op
duplicate; an inflight record answers 202 ("accepted, processing");
processing is reached only when no unexpired record exists; a processed
request calls contact creation exactly once, and a request that completes
with 200 leaves a fresh done record under the lead key, so a second
submission within the TTL takes the duplicate path with no further
contact-creation call and no dispatch. -/
theorem idem_single_processing
    (leads : List (String × IdemRecord)) (key : String) (now ttl : Nat)
    (r : IdemRecord) (hr : mapLookup leads key = some r)
    (cfg : Config) (env : Env) (stA stB stC : ServerState) (body : RawBody)
    (nm ph pc : String) (em oid : Option String)
    (hcfg : configMissing cfg = false)
    (hnorm : normalizeLeadPayload cfg.nameNormalizeEnabled body =
      { name := some nm, email := em, phoneDigits := some ph,
        propertyCode := some pc, originLeadId := oid })
    (hnm : ¬(nm = "")) (hph : ¬(ph = "")) (hpc : ¬(pc = ""))
    (hA : dedupCheck stA.recentLeads (ph ++ ":" ++ pc) env.now cfg.idempotencyTtlMs
        = DedupDecision.dupDone)
    (hB : dedupCheck stB.recentLeads (ph ++ ":" ++ pc) env.now cfg.idempotencyTtlMs
        = DedupDecision.inflightBusy)
    (hC : dedupCheck stC.recentLeads (ph ++ ":" ++ pc) env.now cfg.idempotencyTtlMs
        = DedupDecision.accepted) :
    (r.status = IdemStatus.done → now - r.ts < ttl →
      dedupCheck leads key now ttl = DedupDecision.dupDone) ∧
    (r.status = IdemStatus.inflight →
      dedupCheck leads key now ttl = DedupDecision.inflightBusy) ∧
    (now - r.ts < ttl → dedupCheck leads key now ttl ≠ DedupDecision.accepted) ∧
    (webhookHandler cfg env stA body = { status := 200, state := stA, trace := {} }) ∧
    (webhookHandler cfg env stB body = { status := 202, state := stB, trace := {} }) ∧
    ((webhookHandler cfg env stC body).trace.createContactCalled = true) ∧
    ((webhookHandler cfg env stC body).status = 200 →
      mapLookup (webhookHandler cfg env stC body).state.recentLeads (ph ++ ":" ++ pc)
        = some ⟨env.now2, IdemStatus.done⟩) := by
  refine ⟨?_, ?_, ?_, ?_, ?_, ?_, ?_⟩
  · intro hs hf
    simp [dedupCheck, hr, hs, hf]
  · intro hs
    simp [dedupCheck, hr, hs]
  · intro hf
    cases hs : r.status <;> simp [dedupCheck, hr, hs, hf]
  · rw [webhookHandler_reduce cfg env stA body nm ph pc em oid hcfg hnorm hnm hph hpc, hA]
  · rw [webhookHandler_reduce cfg env stB body nm ph pc em oid hcfg hnorm hnm hph hpc, hB]
  · rw [webhookHandler_reduce cfg env stC body nm ph pc em oid hcfg hnorm hnm hph hpc, hC]
    exact processLead_createCalled _ _ _ _ _ _ _ _
  · rw [webhookHandler_reduce cfg env stC body nm ph pc em oid hcfg hnorm hnm hph hpc, hC]
    exact processLead_status200_done _ _ _ _ _ _ _ _

/-- Witness for C1 at concrete inputs: a fresh done record yields the
200 no-op, an inflight record the 202, and the accepted run calls
contact creation. -/
theorem idem_single_processing_witness :
    mapLookup [("k", IdemRecord.mk 0 IdemStatus.done)] "k"
      = some (IdemRecord.mk 0 IdemStatus.done) ∧
    configMissing cfgA = false ∧
    webhookHandler cfgA envA stDoneA bodyA
      = { status := 200, state := stDoneA, trace := {} } ∧
    webhookHandler cfgA envA stInflightA bodyA
      = { status := 202, state := stInflightA, trace := {} } ∧
    (webhookHandler cfgA envA stEmpty bodyA).trace.createContactCalled = true := by
  have h := idem_single_processing
    [("k", IdemRecord.mk 0 IdemStatus.done)] "k" 1 10 (IdemRecord.mk 0 IdemStatus.done)
    (by decide) cfgA envA stDoneA stInflightA stEmpty bodyA
    "Ana" "11987654321" "123" none none
    (by decide) (by decide) (by decide) (by decide) (by decide)
    (by decide) (by decide) (by decide)
  exact ⟨by decide, by decide, h.2.2.2.1, h.2.2.2.2.1, h.2.2.2.2.2.1⟩

theorem continueDispatch_trace (cfg : Config) (env : Env) (st : ServerState)
    (idemKey : String) (contactId : Nat) (aid : Option Nat) (sel : TemplateSel)
    (tr : HandlerTrace) (htr : tr.dispatchCalled = false) :
    ((continueDispatch cfg env st idemKey contactId aid sel tr).trace.selectionPolicyInvoked
        = tr.selectionPolicyInvoked) ∧
    ((continueDispatch cfg env st idemKey contactId aid sel tr).trace.assignCalled
        = tr.assignCalled) ∧
    ((continueDispatch cfg env st idemKey contactId aid sel tr).trace.dispatchCalled = true →
      (continueDispatch cfg env st idemKey contactId aid sel tr).trace.dispatchedOperator
        = aid) := by
  simp only [continueDispatch, catchResult]
  (repeat' split) <;> simp_all

/-- C2 counterexample: a contact whose fetched details carry the non-null
operator id `user_id = 0` (falsy in JS) still drives the pipeline into
the Operator Selection Policy and an assign-operator call, so "non-null"
alone does not give sticky assignment. -/
theorem sticky_assignment_nonnull_cex :
    (ContactDetails.user_id { user_id := some 0 } ≠ none) ∧
    (webhookHandler cfgA { envA with getDetails := .ok { user_id := some 0 } }
        stEmpty bodyA).trace.selectionPolicyInvoked = true ∧
    (webhookHandler cfgA { envA with getDetails := .ok { user_id := some 0 } }
        stEmpty bodyA).trace.assignCalled = true := by
  refine ⟨by decide, by decide, by decide⟩

/-- C2 (amended): for every contact whose fetched details carry a truthy
assigned operator id (`user_id` non-null and non-zero), re-submitting a
lead for that contact never invokes the Operator Selection Policy and
never calls assign-operator; the existing operator id is the one the
dispatch uses. -/
theorem sticky_assignment_truthy
    (cfg : Config) (env : Env) (st : ServerState) (body : RawBody)
    (nm ph pc : String) (em oid : Option String) (cid : Nat)
    (d : ContactDetails) (uid : Nat)
    (hcfg : configMissing cfg = false)
    (hnorm : normalizeLeadPayload cfg.nameNormalizeEnabled body =
      { name := some nm, email := em, phoneDigits := some ph,
        propertyCode := some pc, originLeadId := oid })
    (hnm : ¬(nm = "")) (hph : ¬(ph = "")) (hpc : ¬(pc = ""))
    (hacc : dedupCheck st.recentLeads (ph ++ ":" ++ pc) env.now cfg.idempotencyTtlMs
        = DedupDecision.accepted)
    (hens : env.ensureContact = .ok cid)
    (hdet : env.getDetails = .ok d)
    (huid : d.user_id = some uid) (h0 : ¬(uid = 0)) :
    (webhookHandler cfg env st body).trace.selectionPolicyInvoked = false ∧
    (webhookHandler cfg env st body).trace.assignCalled = false ∧
    ((webhookHandler cfg env st body).trace.dispatchCalled = true →
      (webhookHandler cfg env st body).trace.dispatchedOperator = some uid) := by
  rw [webhookHandler_reduce cfg env st body nm ph pc em oid hcfg hnorm hnm hph hpc, hacc]
  simp only [processLead, hens, hdet, huid, jsOrNum, truthyNum]
  have h0b : (uid == 0) = false := by simp [h0]
  simp only [h0b, Bool.not_false, if_true, ite_true]
  split
  · simp [catchResult]
  · exact continueDispatch_trace _ _ _ _ _ _ _ _ rfl

/-- Witness for C2 (amended) at concrete inputs: with `user_id = 7` the
selection policy is skipped, assign-operator is not called, and the
dispatch goes to operator 7. -/
theorem sticky_assignment_truthy_witness :
    ({ user_id := some 7 : ContactDetails }.user_id = some 7 ∧ (7 : Nat) ≠ 0) ∧
    (webhookHandler cfgA envA stEmpty bodyA).trace.selectionPolicyInvoked = false ∧
    (webhookHandler cfgA envA stEmpty bodyA).trace.assignCalled = false ∧
    ((webhookHandler cfgA envA stEmpty bodyA).trace.dispatchCalled = true →
      (webhookHandler cfgA envA stEmpty bodyA).trace.dispatchedOperator = some 7) := by
  have h := sticky_assignment_truthy cfgA envA stEmpty bodyA
    "Ana" "11987654321" "123" none none 42 { user_id := some 7 } 7
    (by decide) (by decide) (by decide) (by decide) (by decide)
    (by decide) rfl rfl rfl (by decide)
  exact ⟨⟨rfl, by decide⟩, h.1, h.2.1, h.2.2⟩

theorem insertSorted_perm (x : String) (l : List String) :
    List.Perm (insertSorted x l) (x :: l) := by
  induction l with
  | nil => exact List.Perm.refl _
  | cons y ys ih =>
    simp only [insertSorted]
    split
    · exact List.Perm.refl _
    · exact (ih.cons y).trans (List.Perm.swap x y ys)

theorem sortStrings_perm (l : List String) : List.Perm (sortStrings l) l := by
  induction l with
  | nil => exact List.Perm.refl _
  | cons x xs ih => exact (insertSorted_perm x (sortStrings xs)).trans (ih.cons x)

theorem rrSequence_eq_map (pool : List String) (hne : 0 < pool.length)
    (c0 M : Nat) :
    rrSequence pool c0 M
      = (List.range M).map (fun k => pool[(c0 + k) % pool.length]?) := by
  induction M generalizing c0 with
  | zero => rfl
  | succ M ih =>
    rw [List.range_succ_eq_map, List.map_cons, List.map_map]
    simp only [rrSequence, pickFromQueue, if_pos hne]
    rw [ih (c0 + 1)]
    have hadd : ∀ kk : Nat, c0 + 1 + kk = c0 + (kk + 1) := fun kk => by omega
    simp [hadd, Function.comp]

theorem residue_hit (N a i : Nat) (hN : 0 < N) (hi : i < N) :
    (a + (N + i - a % N) % N) % N = i := by
  have h1 : a % N < N := Nat.mod_lt _ hN
  have e2 : (a + (N + i - a % N) % N) % N = (a % N + (N + i - a % N)) % N :=
    Nat.ModEq.add (Nat.mod_modEq a N).symm (Nat.mod_modEq _ N)
  have e3 : a % N + (N + i - a % N) = N + i := by omega
  rw [e2, e3, Nat.add_mod_left, Nat.mod_eq_of_lt hi]

theorem residue_uniq (N a : Nat) (k l : Nat) (hk : k < N) (hl : l < N)
    (h : (a + k) % N = (a + l) % N) : k = l := by
  have h2 : k % N = l % N := Nat.ModEq.add_left_cancel' a h
  rwa [Nat.mod_eq_of_lt hk, Nat.mod_eq_of_lt hl] at h2

theorem countP_residue_range (N a i : Nat) (hN : 0 < N) (hi : i < N) :
    (List.range N).countP (fun k => decide ((a + k) % N = i)) = 1 := by
  have hjlt : (N + i - a % N) % N < N := Nat.mod_lt _ hN
  have hhit : (a + (N + i - a % N) % N) % N = i := residue_hit N a i hN hi
  rw [List.countP_congr (q := fun k => k == (N + i - a % N) % N) ?hpt]
  case hpt =>
    intro k hk
    rw [List.mem_range] at hk
    by_cases hkj : k = (N + i - a % N) % N
    · subst hkj
      simp [hhit]
    · have hne2 : (a + k) % N ≠ i := by
        intro hc
        exact hkj (residue_uniq N a k _ hk hjlt (by rw [hc, hhit]))
      simp [hne2, hkj]
  rw [← List.count_eq_countP]
  exact List.count_eq_one_of_mem (List.nodup_range N) (List.mem_range.mpr hjlt)

theorem countP_residue_le_one (N a i M : Nat) (hN : 0 < N) (hM : M ≤ N)
    (hi : i < N) :
    (List.range M).countP (fun k => decide ((a + k) % N = i)) ≤ 1 := by
  calc (List.range M).countP (fun k => decide ((a + k) % N = i))
      ≤ (List.range N).countP (fun k => decide ((a + k) % N = i)) :=
        (List.range_sublist.mpr hM).countP_le _
    _ = 1 := countP_residue_range N a i hN hi

theorem countP_residue_add (N a i L : Nat) (hN : 0 < N) (hi : i < N) :
    (List.range (L + N)).countP (fun k => decide ((a + k) % N = i))
      = (List.range L).countP (fun k => decide ((a + k) % N = i)) + 1 := by
  rw [List.range_add, List.countP_append, List.countP_map]
  congr 1
  have hfun : ((fun k => decide ((a + k) % N = i)) ∘ (fun k => L + k))
      = (fun k => decide ((a + L + k) % N = i)) := by
    funext k
    simp only [Function.comp_apply]
    rw [Nat.add_assoc]
  rw [hfun]
  exact countP_residue_range N (a + L) i hN hi

theorem countP_residue_bounds (N a i : Nat) (hN : 0 < N) (hi : i < N) (M : Nat) :
    M / N ≤ (List.range M).countP (fun k => decide ((a + k) % N = i)) ∧
    (List.range M).countP (fun k => decide ((a + k) % N = i)) ≤ (M + N - 1) / N := by
  induction M using Nat.strong_induction_on with
  | _ M ih =>
    by_cases hM : M < N
    · constructor
      · rw [Nat.div_eq_of_lt hM]
        exact Nat.zero_le _
      · rcases Nat.eq_zero_or_pos M with h0 | h0
        · subst h0
          simp
        · have hle1 := countP_residue_le_one N a i M hN (le_of_lt hM) hi
          have h1 : 1 ≤ (M + N - 1) / N := by
            rw [Nat.le_div_iff_mul_le hN]
            omega
          omega
    · push_neg at hM
      obtain ⟨L, rfl⟩ : ∃ L, M = L + N := ⟨M - N, by omega⟩
      have hstep := countP_residue_add N a i L hN hi
      have hIH := ih L (by omega)
      constructor
      · rw [hstep, Nat.add_div_right _ hN]
        omega
      · rw [hstep]
        have hc : (L + N + N - 1) / N = (L + N - 1) / N + 1 := by
          have h2 : L + N + N - 1 = (L + N - 1) + N := by omega
          rw [h2, Nat.add_div_right _ hN]
        omega

/-- C3: for a pool of N distinct operators on one queue with no
availability filtering (candidates = the sorted roster, chosen =
candidates[cursor % N] with the cursor incremented each assignment),
every operator is picked exactly ⌊M/N⌋ or ⌈M/N⌉ (= (M+N-1)/N) times over
any M sequential assignments, and the sequence of picks is periodic with
period N. -/
theorem round_robin_fairness
    (operatorIds : List String) (hnd : operatorIds.Nodup) (hne : operatorIds ≠ [])
    (c0 M k i : Nat) (hi : i < (getAllOperators operatorIds).length) :
    (List.count ((getAllOperators operatorIds)[i]?)
        (rrSequence (getAllOperators operatorIds) c0 M)
        = M / operatorIds.length ∨
     List.count ((getAllOperators operatorIds)[i]?)
        (rrSequence (getAllOperators operatorIds) c0 M)
        = (M + operatorIds.length - 1) / operatorIds.length) ∧
    (pickFromQueue (getAllOperators operatorIds) (c0 + k + operatorIds.length)).1
      = (pickFromQueue (getAllOperators operatorIds) (c0 + k)).1 := by
  have hperm : List.Perm (getAllOperators operatorIds) operatorIds :=
    sortStrings_perm operatorIds
  have hlen : (getAllOperators operatorIds).length = operatorIds.length :=
    hperm.length_eq
  have hndc : (getAllOperators operatorIds).Nodup := hperm.nodup_iff.mpr hnd
  have hpos : 0 < (getAllOperators operatorIds).length := by
    rw [hlen]
    exact List.length_pos.mpr hne
  constructor
  · rw [rrSequence_eq_map _ hpos, List.count_eq_countP, List.countP_map]
    simp only [Function.comp_def]
    have hpt : ∀ kk ∈ List.range M,
        (((getAllOperators operatorIds)[(c0 + kk) % (getAllOperators operatorIds).length]?
            == (getAllOperators operatorIds)[i]?)
          ↔ decide ((c0 + kk) % (getAllOperators operatorIds).length = i)) := by
      intro kk _
      have hm : (c0 + kk) % (getAllOperators operatorIds).length
          < (getAllOperators operatorIds).length := Nat.mod_lt _ hpos
      rw [List.getElem?_eq_getElem hm, List.getElem?_eq_getElem hi]
      simp only [beq_iff_eq, Option.some_inj, decide_eq_true_eq]
      exact hndc.getElem_inj_iff
    rw [List.countP_congr hpt]
    have hb := countP_residue_bounds (getAllOperators operatorIds).length c0 i hpos hi M
    have hceil : (M + (getAllOperators operatorIds).length - 1)
          / (getAllOperators operatorIds).length
        ≤ M / (getAllOperators operatorIds).length + 1 := by
      calc (M + (getAllOperators operatorIds).length - 1)
            / (getAllOperators operatorIds).length
          ≤ (M + (getAllOperators operatorIds).length)
            / (getAllOperators operatorIds).length :=
            Nat.div_le_div_right (by omega)
        _ = M / (getAllOperators operatorIds).length + 1 := Nat.add_div_right _ hpos
    rw [hlen] at hb hceil ⊢
    omega
  · simp only [pickFromQueue, if_pos hpos]
    rw [← hlen]
    rw [Nat.add_mod_right]

/-- Witness for C3 at concrete inputs: pool {"2","1","3"} (sorted to
["1","2","3"]), 7 assignments from cursor 0: operator "2" (index 1) is
chosen 2 = ⌊7/3⌋ times, and the pick at cursor 5 repeats at cursor 8. -/
theorem round_robin_fairness_witness :
    (["2", "1", "3"] : List String).Nodup ∧
    (1 : Nat) < (getAllOperators ["2", "1", "3"]).length ∧
    (List.count ((getAllOperators ["2", "1", "3"])[1]?)
        (rrSequence (getAllOperators ["2", "1", "3"]) 0 7) = 7 / 3 ∨
     List.count ((getAllOperators ["2", "1", "3"])[1]?)
        (rrSequence (getAllOperators ["2", "1", "3"]) 0 7) = (7 + 3 - 1) / 3) ∧
    (pickFromQueue (getAllOperators ["2", "1", "3"]) (0 + 5 + 3)).1
      = (pickFromQueue (getAllOperators ["2", "1", "3"]) (0 + 5)).1 := by
  have h := round_robin_fairness ["2", "1", "3"] (by decide) (by decide)
    0 7 5 1 (by decide)
  exact ⟨by decide, by decide, h.1, h.2⟩

theorem retryAux_always_fails {α : Type} (u : Nat → Except JsError α) (e : JsError)
    (hu : ∀ n, u n = .error e) (hre : isRetryable e = true) (MAX : Nat) :
    ∀ fuel attempt sleeps le, attempt + fuel = MAX → 1 ≤ fuel →
      retryAux u MAX attempt fuel sleeps le =
        ⟨MAX,
          sleeps ++ (List.range (fuel - 1)).map (fun kk => delays.getD (attempt + kk) 4000),
          .error (some e)⟩ := by
  intro fuel
  induction fuel with
  | zero =>
    intro _ _ _ _ h1
    omega
  | succ f ih =>
    intro attempt sleeps le hsum _
    simp only [retryAux, hu (attempt + 1), hre]
    by_cases hlt : attempt + 1 < MAX
    · have hf : 1 ≤ f := by omega
      rw [if_pos (by simp [hlt])]
      rw [ih (attempt + 1) (sleeps ++ [delays.getD attempt 4000]) (some e) (by omega) hf]
      congr 1
      rw [List.append_assoc]
      congr 1
      obtain ⟨g, rfl⟩ : ∃ g, f = g + 1 := ⟨f - 1, by omega⟩
      have hadd : ∀ kk : Nat, attempt + 1 + kk = attempt + (kk + 1) := fun kk => by omega
      simp [List.range_succ_eq_map, List.map_map, Function.comp_def, hadd]
    · have hf0 : f = 0 := by omega
      subst hf0
      rw [if_neg (by simp [hlt])]
      have hA : attempt + 1 = MAX := by omega
      simp [hA]

theorem postWithRetry_exhausts {α : Type} (MAX : Nat) (hMAX : 1 ≤ MAX) (e : JsError)
    (hre : isRetryable e = true) :
    postWithRetry MAX (fun _ => (.error e : Except JsError α)) =
      ⟨MAX, (List.range (MAX - 1)).map (fun kk => delays.getD kk 4000),
        .error (some e)⟩ := by
  have h := retryAux_always_fails (fun _ => (.error e : Except JsError α)) e
    (fun _ => rfl) hre MAX MAX 0 [] none (by omega) hMAX
  simpa [postWithRetry] using h

theorem postWithRetry_immediate {α : Type} (MAX : Nat) (hMAX : 1 ≤ MAX)
    (u : Nat → Except JsError α) (e : JsError) (hu : u 1 = .error e)
    (hnr : isRetryable e = false) :
    postWithRetry MAX u = ⟨1, [], .error (some e)⟩ := by
  obtain ⟨f, rfl⟩ : ∃ f, MAX = f + 1 := ⟨MAX - 1, by omega⟩
  simp [postWithRetry, retryAux, hu, hnr]

theorem isRetryable_of_503 (e : JsError) (h : e.status = some 503) :
    isRetryable e = true := by
  simp [isRetryable, h]

theorem continueDispatch_sendError (cfg : Config) (env : Env) (st : ServerState)
    (idemKey : String) (contactId : Nat) (aid : Option Nat) (sel : TemplateSel)
    (tr : HandlerTrace) (es : JsError) (hs : env.sendTemplate = .error es)
    (htr : tr.dispatchCalled = false) :
    (continueDispatch cfg env st idemKey contactId aid sel tr).trace.dispatchCalled = true →
    (continueDispatch cfg env st idemKey contactId aid sel tr).status = 500 := by
  simp only [continueDispatch, catchResult, hs]
  split
  · intro h
    simp_all
  · intro _
    rfl

theorem continueDispatch_status500_released (cfg : Config) (env : Env)
    (st : ServerState) (idemKey : String) (contactId : Nat) (aid : Option Nat)
    (sel : TemplateSel) (tr : HandlerTrace) :
    (continueDispatch cfg env st idemKey contactId aid sel tr).status = 500 →
    mapLookup (continueDispatch cfg env st idemKey contactId aid sel tr).state.recentLeads
      idemKey = none := by
  simp only [continueDispatch, catchResult]
  split
  · intro h
    simp at h
  · split
    · intro _
      exact mapLookup_delete_self _ _
    · split
      · intro _
        exact mapLookup_delete_self _ _
      · intro h
        simp at h

set_option maxHeartbeats 1000000 in
theorem processLead_sendError (cfg : Config) (env : Env) (st : ServerState)
    (idemKey name propertyCode leadEmail : String) (sel : TemplateSel)
    (es : JsError) (hs : env.sendTemplate = .error es) :
    (processLead cfg env st idemKey name propertyCode leadEmail sel).trace.dispatchCalled
        = true →
    (processLead cfg env st idemKey name propertyCode leadEmail sel).status = 500 := by
  rcases hec : env.ensureContact with e | contactId
  · intro h
    simp [processLead, hec, catchResult] at h
  · rcases hgd : env.getDetails with e | d
    · intro h
      simp [processLead, hec, hgd, catchResult] at h
    · simp only [processLead, hec, hgd]
      (repeat' split) <;>
        first
          | exact continueDispatch_sendError _ _ _ _ _ _ _ _ _ hs rfl
          | (intro h; simp [catchResult] at h)

set_option maxHeartbeats 1000000 in
theorem processLead_status500_released (cfg : Config) (env : Env) (st : ServerState)
    (idemKey name propertyCode leadEmail : String) (sel : TemplateSel) :
    (processLead cfg env st idemKey name propertyCode leadEmail sel).status = 500 →
    mapLookup (processLead cfg env st idemKey name propertyCode leadEmail sel).state.recentLeads
      idemKey = none := by
  rcases hec : env.ensureContact with e | contactId
  · intro _
    simp [processLead, hec, catchResult, mapLookup_delete_self]
  · rcases hgd : env.getDetails with e | d
    · intro _
      simp [processLead, hec, hgd, catchResult, mapLookup_delete_self]
    · simp only [processLead, hec, hgd]
      (repeat' split) <;>
        first
          | exact continueDispatch_status500_released _ _ _ _ _ _ _ _
          | (intro _; exact mapLookup_delete_self _ _)

/-- C4: a persistently failing upstream (HTTP 503 on every attempt) makes
the retried POST perform exactly MAX_RETRIES attempts with the sleeps
taken in order from the fixed 250ms/1s/4s schedule, then surface the
failure; a non-retryable error (e.g. a 4xx with no transient network
code) fails after exactly one attempt with no sleeps; and a pipeline run
whose dispatch fails answers 500 with the lead's idempotency record
deleted. -/
theorem retry_exhaustion_and_key_release
    {α : Type} (MAX : Nat) (hMAX : 1 ≤ MAX) (e : JsError) (h503 : e.status = some 503)
    (u : Nat → Except JsError α) (e2 : JsError) (hu : u 1 = .error e2)
    (hnr : isRetryable e2 = false)
    (cfg : Config) (env : Env) (st : ServerState) (body : RawBody)
    (nm ph pc : String) (em oid : Option String) (es : JsError)
    (hcfg : configMissing cfg = false)
    (hnorm : normalizeLeadPayload cfg.nameNormalizeEnabled body =
      { name := some nm, email := em, phoneDigits := some ph,
        propertyCode := some pc, originLeadId := oid })
    (hnm : ¬(nm = "")) (hph : ¬(ph = "")) (hpc : ¬(pc = ""))
    (hacc : dedupCheck st.recentLeads (ph ++ ":" ++ pc) env.now cfg.idempotencyTtlMs
        = DedupDecision.accepted)
    (hsend : env.sendTemplate = .error es) :
    (postWithRetry MAX (fun _ => (.error e : Except JsError α)) =
      ⟨MAX, (List.range (MAX - 1)).map (fun kk => delays.getD kk 4000),
        .error (some e)⟩) ∧
    (postWithRetry MAX u = ⟨1, [], .error (some e2)⟩) ∧
    ((webhookHandler cfg env st body).trace.dispatchCalled = true →
      (webhookHandler cfg env st body).status = 500) ∧
    ((webhookHandler cfg env st body).status = 500 →
      mapLookup (webhookHandler cfg env st body).state.recentLeads (ph ++ ":" ++ pc)
        = none) := by
  refine ⟨postWithRetry_exhausts MAX hMAX e (isRetryable_of_503 e h503),
    postWithRetry_immediate MAX hMAX u e2 hu hnr, ?_, ?_⟩
  · rw [webhookHandler_reduce cfg env st body nm ph pc em oid hcfg hnorm hnm hph hpc, hacc]
    exact processLead_sendError _ _ _ _ _ _ _ _ es hsend
  · rw [webhookHandler_reduce cfg env st body nm ph pc em oid hcfg hnorm hnm hph hpc, hacc]
    exact processLead_status500_released _ _ _ _ _ _ _ _

/-- Witness for C4 at concrete inputs: MAX_RETRIES = 3 on a constant-503
upstream gives 3 attempts and the sleeps [250, 1000]; a 400 error gives a
single attempt; the concrete failing dispatch answers 500 with the
record released. -/
theorem retry_exhaustion_and_key_release_witness :
    (postWithRetry 3 (fun _ => (.error ⟨some 503, none⟩ : Except JsError Nat))).attempts = 3 ∧
    (postWithRetry 3 (fun _ => (.error ⟨some 503, none⟩ : Except JsError Nat))).sleeps
      = [250, 1000] ∧
    (postWithRetry 3 (fun _ => (.error ⟨some 400, none⟩ : Except JsError Nat))).attempts = 1 ∧
    (webhookHandler cfgA { envA with sendTemplate := .error ⟨some 500, none⟩ }
        stEmpty bodyA).status = 500 ∧
    mapLookup (webhookHandler cfgA { envA with sendTemplate := .error ⟨some 500, none⟩ }
        stEmpty bodyA).state.recentLeads ("11987654321" ++ ":" ++ "123") = none := by
  have h := retry_exhaustion_and_key_release (α := Nat) 3 (by decide)
    ⟨some 503, none⟩ rfl (fun _ => .error ⟨some 400, none⟩) ⟨some 400, none⟩ rfl
    (by decide) cfgA { envA with sendTemplate := .error ⟨some 500, none⟩ } stEmpty bodyA
    "Ana" "11987654321" "123" none none ⟨some 500, none⟩
    (by decide) (by decide) (by decide) (by decide) (by decide) (by decide) rfl
  refine ⟨by rw [h.1], by rw [h.1]; rfl, by rw [h.2.1], h.2.2.1 (by decide), ?_⟩
  have h500 : (webhookHandler cfgA { envA with sendTemplate := .error ⟨some 500, none⟩ }
      stEmpty bodyA).status = 500 := h.2.2.1 (by decide)
  exact h.2.2.2 h500

/-- C5: for every schedule window and evaluation instant, the window test
of the Schedule Evaluator satisfies: equal bounds mean always open;
start < end is open exactly when start ≤ nowMin < end; start > end wraps
midnight and is open exactly when nowMin ≥ start or nowMin < end. -/
theorem schedule_window_cases (schedule : Nat → Option (String × String))
    (dow nowMin : Nat) (ws we : String) (hconf : schedule dow = some (ws, we)) :
    (parseHm ws = parseHm we →
      isWithinBusinessSchedule schedule dow nowMin = true) ∧
    (parseHm ws < parseHm we →
      (isWithinBusinessSchedule schedule dow nowMin = true ↔
        parseHm ws ≤ nowMin ∧ nowMin < parseHm we)) ∧
    (parseHm we < parseHm ws →
      (isWithinBusinessSchedule schedule dow nowMin = true ↔
        nowMin ≥ parseHm ws ∨ nowMin < parseHm we)) := by
  refine ⟨?_, ?_, ?_⟩
  · intro h
    simp [isWithinBusinessSchedule, hconf, h]
  · intro h
    have hne2 : ¬(parseHm ws = parseHm we) := Nat.ne_of_lt h
    simp [isWithinBusinessSchedule, hconf, hne2, h]
  · intro h
    have hne2 : ¬(parseHm ws = parseHm we) := (Nat.ne_of_lt h).symm
    have hnlt : ¬(parseHm ws < parseHm we) := by omega
    simp [isWithinBusinessSchedule, hconf, hne2, hnlt]

/-- Witness for C5 at the wrap-around window 22:00-06:00: open at 23:00
and at 05:00, closed at 12:00. -/
theorem schedule_window_cases_witness :
    (fun _ : Nat => some ("22:00", "06:00")) 1 = some ("22:00", "06:00") ∧
    isWithinBusinessSchedule (fun _ => some ("22:00", "06:00")) 1 (23 * 60) = true ∧
    isWithinBusinessSchedule (fun _ => some ("22:00", "06:00")) 1 (5 * 60) = true ∧
    isWithinBusinessSchedule (fun _ => some ("22:00", "06:00")) 1 (12 * 60) = false := by
  have h1 := schedule_window_cases (fun _ => some ("22:00", "06:00")) 1 (23 * 60)
    "22:00" "06:00" rfl
  have h2 := schedule_window_cases (fun _ => some ("22:00", "06:00")) 1 (5 * 60)
    "22:00" "06:00" rfl
  have h3 := schedule_window_cases (fun _ => some ("22:00", "06:00")) 1 (12 * 60)
    "22:00" "06:00" rfl
  refine ⟨rfl, ?_, ?_, ?_⟩
  · exact (h1.2.2 (by decide)).mpr (Or.inl (by decide))
  · exact (h2.2.2 (by decide)).mpr (Or.inr (by decide))
  · have h := h3.2.2 (by decide)
    have hrhs : ¬(12 * 60 ≥ parseHm "22:00" ∨ 12 * 60 < parseHm "06:00") := by decide
    have hnt : ¬(isWithinBusinessSchedule (fun _ => some ("22:00", "06:00")) 1 (12 * 60)
        = true) := fun ht => hrhs (h.mp ht)
    simpa using hnt

/-- C6 counterexample: within business hours with an empty in-hours pool,
selectTemplateForNow returns a null (absent) template — it does not
signal a ConfigurationError. -/
theorem template_null_fallback_cex :
    (selectTemplateForNow [] (some "TOFF") 10 2 0).dentroHorario = true ∧
    (selectTemplateForNow [] (some "TOFF") 10 2 0).chosenTemplate = none := by
  decide

/-- C6 (amended): within business hours and with a non-empty pool the
chosen template is the pool entry at the random index (and every index
is attainable); outside business hours the configured off-hours id is
returned as-is; within business hours with an empty pool the selection
yields a null template (no error is signaled). -/
theorem template_selection_resolution (pool : List String) (offId : Option String)
    (hh dow randIdx i : Nat) :
    ((selectTemplateForNow pool offId hh dow randIdx).dentroHorario = true →
      randIdx < pool.length →
      (selectTemplateForNow pool offId hh dow randIdx).chosenTemplate = pool[randIdx]? ∧
      ∃ t, (selectTemplateForNow pool offId hh dow randIdx).chosenTemplate = some t ∧
        t ∈ pool) ∧
    ((selectTemplateForNow pool offId hh dow randIdx).dentroHorario = true →
      i < pool.length →
      (selectTemplateForNow pool offId hh dow i).chosenTemplate = pool[i]?) ∧
    ((selectTemplateForNow pool offId hh dow randIdx).dentroHorario = false →
      (selectTemplateForNow pool offId hh dow randIdx).chosenTemplate = offId) ∧
    ((selectTemplateForNow pool offId hh dow randIdx).dentroHorario = true →
      pool = [] →
      (selectTemplateForNow pool offId hh dow randIdx).chosenTemplate = none) := by
  cases hdh : withinBusinessHours hh dow
  · refine ⟨?_, ?_, ?_, ?_⟩ <;> intro h
    · simp [selectTemplateForNow, hdh] at h
    · simp [selectTemplateForNow, hdh] at h
    · simp [selectTemplateForNow, hdh]
    · simp [selectTemplateForNow, hdh] at h
  · refine ⟨?_, ?_, ?_, ?_⟩
    · intro _ hlt
      have hpos : 0 < pool.length := by omega
      refine ⟨by simp [selectTemplateForNow, hdh, hpos], ?_⟩
      refine ⟨pool[randIdx], ?_, List.getElem_mem hlt⟩
      simp [selectTemplateForNow, hdh, hpos, List.getElem?_eq_getElem hlt]
    · intro _ hlt
      have hpos : 0 < pool.length := by omega
      simp [selectTemplateForNow, hdh, hpos]
    · intro h
      simp [selectTemplateForNow, hdh] at h
    · intro _ hnil
      subst hnil
      simp [selectTemplateForNow, hdh]

/-- Witness for C6 (amended) at concrete inputs: pool ["T1", "T2"] in
hours picks index 1, off hours returns the configured id. -/
theorem template_selection_resolution_witness :
    ((selectTemplateForNow ["T1", "T2"] (some "TOFF") 10 2 1).dentroHorario = true ∧
      (1 : Nat) < 2) ∧
    (selectTemplateForNow ["T1", "T2"] (some "TOFF") 10 2 1).chosenTemplate
      = ["T1", "T2"][1]? ∧
    (selectTemplateForNow ["T1", "T2"] (some "TOFF") 22 2 0).dentroHorario = false ∧
    (selectTemplateForNow ["T1", "T2"] (some "TOFF") 22 2 0).chosenTemplate
      = some "TOFF" := by
  have h := template_selection_resolution ["T1", "T2"] (some "TOFF") 10 2 1 1
  have h2 := template_selection_resolution ["T1", "T2"] (some "TOFF") 22 2 0 0
  exact ⟨⟨by decide, by decide⟩, (h.1 (by decide) (by decide)).1,
    by decide, h2.2.2.1 (by decide)⟩

/-- C7 counterexample: needNameUpdate returns false both when the current
name is empty and when it equals the desired name while being entirely
uppercase — the claim asserts true in both situations. -/
theorem needNameUpdate_claim_cex :
    needNameUpdate "" "John" = false ∧
    needNameUpdate "JOHN" "JOHN" = false ∧
    normWs "JOHN" = strToUpper (normWs "JOHN") := by
  decide

/-- C7 (amended): needNameUpdate is false when either argument is empty
or when current equals desired exactly; otherwise it is true iff the
whitespace-normalized current name is entirely uppercase, entirely
lowercase, or differs from the normalized desired name. -/
theorem needNameUpdate_characterization (current desired : String) :
    needNameUpdate current desired = true ↔
      (¬(current = "") ∧ ¬(desired = "") ∧ ¬(current = desired) ∧
        (normWs current = strToUpper (normWs current) ∨
         normWs current = strToLower (normWs current) ∨
         ¬(normWs current = normWs desired))) := by
  by_cases hc : current = "" <;> by_cases hd : desired = "" <;>
    by_cases he : current = desired <;>
    simp [needNameUpdate, hc, hd, he, or_assoc]

theorem continueDispatch_suppressed (cfg : Config) (env : Env) (st : ServerState)
    (idemKey : String) (contactId : Nat) (aid : Option Nat) (sel : TemplateSel)
    (tr : HandlerTrace) (T : String) (hT : sel.chosenTemplate = some T) (ts0 : Nat)
    (hcool : mapLookup st.recentSends (toString contactId ++ ":" ++ T) = some ts0)
    (hfresh : env.now - ts0 < cfg.sendCooldownMs) :
    continueDispatch cfg env st idemKey contactId aid sel tr =
      { status := 200,
        state := { st with
          recentLeads := mapSet st.recentLeads idemKey ⟨env.now2, IdemStatus.done⟩ },
        trace := tr } := by
  simp only [continueDispatch, hT, jsTemplateStr, hcool]
  simp [hfresh]

theorem continueDispatch_dispatches (cfg : Config) (env : Env) (st : ServerState)
    (idemKey : String) (contactId : Nat) (aid : Option Nat) (sel : TemplateSel)
    (tr : HandlerTrace) (T : String) (hT : sel.chosenTemplate = some T)
    (hcool : mapLookup st.recentSends (toString contactId ++ ":" ++ T) = none)
    (respBody : SendBody) (hsend : env.sendTemplate = .ok respBody)
    (hf1 : ¬(respBody.success = some false)) (hf2 : ¬(respBody.send = some false)) :
    (continueDispatch cfg env st idemKey contactId aid sel tr).trace.dispatchCalled = true ∧
    (continueDispatch cfg env st idemKey contactId aid sel tr).status = 200 := by
  simp only [continueDispatch, hT, jsTemplateStr, hcool, hsend]
  simp [hf1, hf2]

theorem processLead_assigned_continue (cfg : Config) (env : Env) (st : ServerState)
    (idemKey name propertyCode leadEmail : String) (sel : TemplateSel)
    (cid : Nat) (d : ContactDetails) (uid : Nat)
    (hens : env.ensureContact = .ok cid) (hdet : env.getDetails = .ok d)
    (hupd : env.updateFields = .ok ()) (huid : d.user_id = some uid) (h0 : ¬(uid = 0)) :
    ∃ tr, processLead cfg env st idemKey name propertyCode leadEmail sel
        = continueDispatch cfg env st idemKey cid (some uid) sel tr ∧
      tr.dispatchCalled = false := by
  have hj : jsOrNum d.user_id d.userId = some uid := by
    simp [jsOrNum, truthyNum, huid, h0]
  have ht : truthyNum (some uid) = true := by
    simp [truthyNum, h0]
  simp only [processLead, hens, hdet, hupd, ite_self, hj, ht, if_true, ite_true]
  exact ⟨_, rfl, rfl⟩

/-- C8: after template T was sent to contact C (a fresh recentSends
record for C:T exists), a pipeline run that again resolves template T
for C is suppressed — no dispatch call, the lead's idempotency record is
marked done, and the request completes with 200 — while a run that
resolves a different template T2 (no C:T2 record) is not suppressed and
dispatches. -/
theorem cooldown_suppression
    (cfg : Config) (env env2 : Env) (st st2 : ServerState) (body : RawBody)
    (nm ph pc : String) (em oid : Option String) (cid cid2 : Nat)
    (d d2 : ContactDetails) (uid uid2 : Nat) (T T2 : String) (ts0 : Nat)
    (respBody : SendBody)
    (hcfg : configMissing cfg = false)
    (hnorm : normalizeLeadPayload cfg.nameNormalizeEnabled body =
      { name := some nm, email := em, phoneDigits := some ph,
        propertyCode := some pc, originLeadId := oid })
    (hnm : ¬(nm = "")) (hph : ¬(ph = "")) (hpc : ¬(pc = ""))
    (haccA : dedupCheck st.recentLeads (ph ++ ":" ++ pc) env.now cfg.idempotencyTtlMs
        = DedupDecision.accepted)
    (hensA : env.ensureContact = .ok cid)
    (hdetA : env.getDetails = .ok d)
    (hupdA : env.updateFields = .ok ())
    (huidA : d.user_id = some uid) (h0A : ¬(uid = 0))
    (hselA : (selectTemplateForNow cfg.templateIdsInHours cfg.offHoursTemplateId
        env.hh env.dow env.randIdx).chosenTemplate = some T)
    (hcool : mapLookup st.recentSends (toString cid ++ ":" ++ T) = some ts0)
    (hfresh : env.now - ts0 < cfg.sendCooldownMs)
    (haccB : dedupCheck st2.recentLeads (ph ++ ":" ++ pc) env2.now cfg.idempotencyTtlMs
        = DedupDecision.accepted)
    (hensB : env2.ensureContact = .ok cid2)
    (hdetB : env2.getDetails = .ok d2)
    (hupdB : env2.updateFields = .ok ())
    (huidB : d2.user_id = some uid2) (h0B : ¬(uid2 = 0))
    (hselB : (selectTemplateForNow cfg.templateIdsInHours cfg.offHoursTemplateId
        env2.hh env2.dow env2.randIdx).chosenTemplate = some T2)
    (hcoolB : mapLookup st2.recentSends (toString cid2 ++ ":" ++ T2) = none)
    (hsendB : env2.sendTemplate = .ok respBody)
    (hf1 : ¬(respBody.success = some false)) (hf2 : ¬(respBody.send = some false)) :
    ((webhookHandler cfg env st body).status = 200 ∧
     (webhookHandler cfg env st body).trace.dispatchCalled = false ∧
     mapLookup (webhookHandler cfg env st body).state.recentLeads (ph ++ ":" ++ pc)
       = some ⟨env.now2, IdemStatus.done⟩) ∧
    ((webhookHandler cfg env2 st2 body).trace.dispatchCalled = true ∧
     (webhookHandler cfg env2 st2 body).status = 200) := by
  constructor
  · rw [webhookHandler_reduce cfg env st body nm ph pc em oid hcfg hnorm hnm hph hpc, haccA]
    obtain ⟨tr, heq, htr⟩ := processLead_assigned_continue cfg env
      { st with
          recentLeads :=
            mapSet st.recentLeads (ph ++ ":" ++ pc) ⟨env.now, IdemStatus.inflight⟩ }
      (ph ++ ":" ++ pc) nm pc (leadEmailOr em)
      (selectTemplateForNow cfg.templateIdsInHours cfg.offHoursTemplateId
        env.hh env.dow env.randIdx) cid d uid hensA hdetA hupdA huidA h0A
    have hcool1 :
        mapLookup
          ({ st with
              recentLeads :=
                mapSet st.recentLeads (ph ++ ":" ++ pc)
                  ⟨env.now, IdemStatus.inflight⟩ } : ServerState).recentSends
          (toString cid ++ ":" ++ T) = some ts0 := hcool
    rw [heq, continueDispatch_suppressed cfg env
      { st with
          recentLeads :=
            mapSet st.recentLeads (ph ++ ":" ++ pc) ⟨env.now, IdemStatus.inflight⟩ }
      (ph ++ ":" ++ pc) cid (some uid) _ tr T hselA ts0 hcool1 hfresh]
    exact ⟨rfl, htr, mapLookup_set_self _ _ _⟩
  · rw [webhookHandler_reduce cfg env2 st2 body nm ph pc em oid hcfg hnorm hnm hph hpc,
      haccB]
    obtain ⟨tr, heq, htr⟩ := processLead_assigned_continue cfg env2
      { st2 with
          recentLeads :=
            mapSet st2.recentLeads (ph ++ ":" ++ pc) ⟨env2.now, IdemStatus.inflight⟩ }
      (ph ++ ":" ++ pc) nm pc (leadEmailOr em)
      (selectTemplateForNow cfg.templateIdsInHours cfg.offHoursTemplateId
        env2.hh env2.dow env2.randIdx) cid2 d2 uid2 hensB hdetB hupdB huidB h0B
    have hcool1 :
        mapLookup
          ({ st2 with
              recentLeads :=
                mapSet st2.recentLeads (ph ++ ":" ++ pc)
                  ⟨env2.now, IdemStatus.inflight⟩ } : ServerState).recentSends
          (toString cid2 ++ ":" ++ T2) = none := hcoolB
    rw [heq]
    exact continueDispatch_dispatches cfg env2
      { st2 with
          recentLeads :=
            mapSet st2.recentLeads (ph ++ ":" ++ pc) ⟨env2.now, IdemStatus.inflight⟩ }
      (ph ++ ":" ++ pc) cid2 (some uid2) _ tr T2 hselB hcool1 respBody hsendB hf1 hf2

/-- Witness for C8 at concrete inputs: with a fresh record for "42:T1"
the resend of T1 is suppressed and the lead marked done, while sending
T2 (random index 1) dispatches. -/
theorem cooldown_suppression_witness :
    mapLookup [("42:T1", 500)] ("42" ++ ":" ++ "T1") = some 500 ∧
    (webhookHandler cfgA envA { stEmpty with recentSends := [("42:T1", 500)] }
        bodyA).status = 200 ∧
    (webhookHandler cfgA envA { stEmpty with recentSends := [("42:T1", 500)] }
        bodyA).trace.dispatchCalled = false ∧
    (webhookHandler cfgA { envA with randIdx := 1 }
        { stEmpty with recentSends := [("42:T1", 500)] } bodyA).trace.dispatchCalled
      = true ∧
    (webhookHandler cfgA { envA with randIdx := 1 }
        { stEmpty with recentSends := [("42:T1", 500)] } bodyA).status = 200 := by
  have h := cooldown_suppression cfgA envA { envA with randIdx := 1 }
    { stEmpty with recentSends := [("42:T1", 500)] }
    { stEmpty with recentSends := [("42:T1", 500)] } bodyA
    "Ana" "11987654321" "123" none none 42 42
    { user_id := some 7 } { user_id := some 7 } 7 7 "T1" "T2" 500
    { success := some true, send := some true }
    (by decide) (by decide) (by decide) (by decide) (by decide)
    (by decide) rfl rfl rfl rfl (by decide) (by decide) (by decide) (by decide)
    (by decide) rfl rfl rfl rfl (by decide) (by decide) (by decide) rfl
    (by decide) (by decide)
  exact ⟨by decide, h.1.1, h.1.2.1, h.2.1, h.2.2⟩

theorem continueDispatch_assignTrace (cfg : Config) (env : Env) (st : ServerState)
    (idemKey : String) (contactId : Nat) (aid : Option Nat) (sel : TemplateSel)
    (tr : HandlerTrace) :
    (continueDispatch cfg env st idemKey contactId aid sel tr).trace.assignCalled
        = tr.assignCalled ∧
    (continueDispatch cfg env st idemKey contactId aid sel tr).trace.assignedTo
        = tr.assignedTo := by
  simp only [continueDispatch, catchResult]
  (repeat' split) <;> exact ⟨rfl, rfl⟩

theorem selectOperatorForLead_fallback (cfg : Config) (availableOps : List String)
    (propertyCode : String) (g s : Nat)
    (hsor : cfg.sorocabaPropertyCodes.contains propertyCode = false)
    (hfilt : (getAllOperators cfg.operatorIds).filter
        (fun id => availableOps.contains id) = [])
    (hne : cfg.operatorIds ≠ []) :
    selectOperatorForLead cfg availableOps propertyCode g s =
      { assignedOperatorId :=
          ((getAllOperators cfg.operatorIds)[g % (getAllOperators cfg.operatorIds).length]?).map
            jsToNum,
        generalIdx := g + 1, sorocabaIdx := s } := by
  have hpos : 0 < (getAllOperators cfg.operatorIds).length := by
    simp only [getAllOperators, (sortStrings_perm cfg.operatorIds).length_eq]
    exact List.length_pos.mpr hne
  simp only [selectOperatorForLead, hsor, Bool.false_eq_true, if_false, ite_false]
  rw [hfilt]
  simp [pickFromQueue, hpos, sortStrings]

/-- C9: availability is advisory. A failed or malformed live-availability
fetch yields the empty availability set; when filtering the roster by
availability leaves nothing, selection falls back to the full unfiltered
roster and still picks the round-robin operator; and the pipeline then
still calls assign-operator with that operator. -/
theorem availability_advisory_fallback
    (cfg : Config) (env : Env) (st : ServerState) (body : RawBody)
    (nm ph pc : String) (em oid : Option String) (cid : Nat) (d : ContactDetails)
    (hcfg : configMissing cfg = false)
    (hnorm : normalizeLeadPayload cfg.nameNormalizeEnabled body =
      { name := some nm, email := em, phoneDigits := some ph,
        propertyCode := some pc, originLeadId := oid })
    (hnm : ¬(nm = "")) (hph : ¬(ph = "")) (hpc : ¬(pc = ""))
    (hacc : dedupCheck st.recentLeads (ph ++ ":" ++ pc) env.now cfg.idempotencyTtlMs
        = DedupDecision.accepted)
    (hens : env.ensureContact = .ok cid)
    (hdet : env.getDetails = .ok d)
    (hupd : env.updateFields = .ok ())
    (hu1 : d.user_id = none) (hu2 : d.userId = none)
    (hsor : cfg.sorocabaPropertyCodes.contains pc = false)
    (hfilt : (getAllOperators cfg.operatorIds).filter
        (fun id => (getServiceAvailableOperatorIds env.availabilityFetch).contains id)
      = [])
    (hne : cfg.operatorIds ≠ [])
    (hassign : env.assignOp = .ok ())
    (htru : truthyNum
        (((getAllOperators cfg.operatorIds)[st.generalRoundRobinIndex
            % (getAllOperators cfg.operatorIds).length]?).map jsToNum) = true) :
    (∀ e3 : JsError, getServiceAvailableOperatorIds (.error e3) = []) ∧
    (getServiceAvailableOperatorIds (.ok none) = []) ∧
    (selectOperatorForLead cfg (getServiceAvailableOperatorIds env.availabilityFetch)
        pc st.generalRoundRobinIndex st.sorocabaRoundRobinIndex =
      { assignedOperatorId :=
          ((getAllOperators cfg.operatorIds)[st.generalRoundRobinIndex
              % (getAllOperators cfg.operatorIds).length]?).map jsToNum,
        generalIdx := st.generalRoundRobinIndex + 1,
        sorocabaIdx := st.sorocabaRoundRobinIndex }) ∧
    ((webhookHandler cfg env st body).trace.assignCalled = true ∧
     (webhookHandler cfg env st body).trace.assignedTo =
       ((getAllOperators cfg.operatorIds)[st.generalRoundRobinIndex
           % (getAllOperators cfg.operatorIds).length]?).map jsToNum) := by
  have hsel := selectOperatorForLead_fallback cfg
    (getServiceAvailableOperatorIds env.availabilityFetch) pc
    st.generalRoundRobinIndex st.sorocabaRoundRobinIndex hsor hfilt hne
  refine ⟨fun _ => rfl, rfl, hsel, ?_⟩
  rw [webhookHandler_reduce cfg env st body nm ph pc em oid hcfg hnorm hnm hph hpc, hacc]
  have hj : jsOrNum d.user_id d.userId = none := by
    simp [jsOrNum, truthyNum, hu1, hu2]
  have htn : truthyNum (none : Option Nat) = false := rfl
  simp only [processLead, hens, hdet, hupd, ite_self, hj, htn, Bool.false_eq_true,
    if_false, ite_false, hsel, htru, if_true, ite_true, hassign]
  constructor
  · rw [(continueDispatch_assignTrace _ _ _ _ _ _ _ _).1]
  · rw [(continueDispatch_assignTrace _ _ _ _ _ _ _ _).2]

/-- Witness for C9 at concrete inputs: the availability fetch fails with
a network error, the filtered list is empty, yet operator 101 (sorted
roster, cursor 0) is assigned. -/
theorem availability_advisory_fallback_witness :
    getServiceAvailableOperatorIds (.error ⟨none, some "ECONNRESET"⟩) = [] ∧
    (webhookHandler cfgA
        { envA with getDetails := .ok {},
                    availabilityFetch := .error ⟨none, some "ECONNRESET"⟩ }
        stEmpty bodyA).trace.assignCalled = true ∧
    (webhookHandler cfgA
        { envA with getDetails := .ok {},
                    availabilityFetch := .error ⟨none, some "ECONNRESET"⟩ }
        stEmpty bodyA).trace.assignedTo =
      ((getAllOperators cfgA.operatorIds)[0 % (getAllOperators cfgA.operatorIds).length]?).map
        jsToNum := by
  have h := availability_advisory_fallback cfgA
    { envA with getDetails := .ok {},
                availabilityFetch := .error ⟨none, some "ECONNRESET"⟩ }
    stEmpty bodyA "Ana" "11987654321" "123" none none 42 {}
    (by decide) (by decide) (by decide) (by decide) (by decide)
    (by decide) rfl rfl rfl rfl rfl (by decide) (by decide) (by decide) rfl (by decide)
  exact ⟨h.1 ⟨none, some "ECONNRESET"⟩, h.2.2.2.1, h.2.2.2.2⟩

theorem continueDispatch_updateTrace (cfg : Config) (env : Env) (st : ServerState)
    (idemKey : String) (contactId : Nat) (aid : Option Nat) (sel : TemplateSel)
    (tr : HandlerTrace) :
    (continueDispatch cfg env st idemKey contactId aid sel tr).trace.updateFieldsSent
        = tr.updateFieldsSent ∧
    (continueDispatch cfg env st idemKey contactId aid sel tr).trace.updateCalled
        = tr.updateCalled := by
  simp only [continueDispatch, catchResult]
  (repeat' split) <;> exact ⟨rfl, rfl⟩

set_option maxHeartbeats 1000000 in
theorem processLead_updateFields (cfg : Config) (env : Env) (st : ServerState)
    (idemKey name propertyCode leadEmail : String) (sel : TemplateSel)
    (cid : Nat) (d : ContactDetails)
    (hens : env.ensureContact = .ok cid) (hdet : env.getDetails = .ok d) :
    (processLead cfg env st idemKey name propertyCode leadEmail sel).trace.updateFieldsSent
        = reconcileFields cfg d name propertyCode leadEmail ∧
    (processLead cfg env st idemKey name propertyCode leadEmail sel).trace.updateCalled
        = !(reconcileFields cfg d name propertyCode leadEmail).isEmpty := by
  simp only [processLead, hens, hdet]
  (repeat' split) <;>
    simp [catchResult, (continueDispatch_updateTrace _ _ _ _ _ _ _ _).1,
      (continueDispatch_updateTrace _ _ _ _ _ _ _ _).2]

theorem reconcileFields_cpf_mem (cfg : Config) (d : ContactDetails)
    (name propertyCode leadEmail : String)
    (hneq : ¬(jsOrEmpty d.cpf = padStart propertyCode 11 '0')) :
    ("cpf", padStart propertyCode 11 '0')
        ∈ reconcileFields cfg d name propertyCode leadEmail ∧
    reconcileFields cfg d name propertyCode leadEmail ≠ [] := by
  simp only [reconcileFields]
  constructor
  · refine List.mem_append.mpr (Or.inl ?_)
    refine List.mem_append.mpr (Or.inr ?_)
    simp [hneq]
  · simp [hneq]

theorem reconcileFields_no_cpf (cfg : Config) (d : ContactDetails)
    (name propertyCode leadEmail : String)
    (heq : jsOrEmpty d.cpf = padStart propertyCode 11 '0') (v : String) :
    ("cpf", v) ∉ reconcileFields cfg d name propertyCode leadEmail := by
  simp only [reconcileFields, heq]
  intro hmem
  rcases List.mem_append.mp hmem with hm | hm
  · rcases List.mem_append.mp hm with hm2 | hm2
    · revert hm2
      split <;> simp
    · revert hm2
      simp
  · revert hm
    split <;> simp

/-- C10: for every lead whose property code is present, the CRM contact
creation form carries cpf = the property code left-padded with zeros to
length 11, and during reconciliation a cpf update with that same padded
value is sent exactly when the stored cpf differs from it — the cpf
field is used to carry the listing code. -/
theorem cpf_overload_padding
    (cname cphone pcs : String) (cemail : Option String) (hpcs : ¬(pcs = ""))
    (cfg : Config) (env : Env) (st : ServerState) (body : RawBody)
    (nm ph pc : String) (em oid : Option String) (cid : Nat) (d : ContactDetails)
    (v : String)
    (hcfg : configMissing cfg = false)
    (hnorm : normalizeLeadPayload cfg.nameNormalizeEnabled body =
      { name := some nm, email := em, phoneDigits := some ph,
        propertyCode := some pc, originLeadId := oid })
    (hnm : ¬(nm = "")) (hph : ¬(ph = "")) (hpc : ¬(pc = ""))
    (hacc : dedupCheck st.recentLeads (ph ++ ":" ++ pc) env.now cfg.idempotencyTtlMs
        = DedupDecision.accepted)
    (hens : env.ensureContact = .ok cid)
    (hdet : env.getDetails = .ok d) :
    (("cpf", padStart pcs 11 '0') ∈ ensureContactForm cname cphone cemail (some pcs)) ∧
    (¬(jsOrEmpty d.cpf = padStart pc 11 '0') →
      ("cpf", padStart pc 11 '0') ∈ (webhookHandler cfg env st body).trace.updateFieldsSent ∧
      (webhookHandler cfg env st body).trace.updateCalled = true) ∧
    (jsOrEmpty d.cpf = padStart pc 11 '0' →
      ("cpf", v) ∉ (webhookHandler cfg env st body).trace.updateFieldsSent) := by
  rw [webhookHandler_reduce cfg env st body nm ph pc em oid hcfg hnorm hnm hph hpc, hacc]
  have hfields := processLead_updateFields cfg env
    { st with
        recentLeads :=
          mapSet st.recentLeads (ph ++ ":" ++ pc) ⟨env.now, IdemStatus.inflight⟩ }
    (ph ++ ":" ++ pc) nm pc (leadEmailOr em)
    (selectTemplateForNow cfg.templateIdsInHours cfg.offHoursTemplateId
      env.hh env.dow env.randIdx) cid d hens hdet
  refine ⟨?_, ?_, ?_⟩
  · simp only [ensureContactForm]
    refine List.mem_append.mpr (Or.inr ?_)
    simp [hpcs]
  · intro hneq
    have hmem := reconcileFields_cpf_mem cfg d nm pc (leadEmailOr em) hneq
    rw [hfields.1, hfields.2]
    refine ⟨hmem.1, ?_⟩
    simp [List.isEmpty_iff, hmem.2]
  · intro heq
    rw [hfields.1]
    exact reconcileFields_no_cpf cfg d nm pc (leadEmailOr em) heq v

/-- Witness for C10 at concrete inputs: property code "123" is padded to
"00000000123" both in the creation form and in the reconciliation update
of a contact whose stored cpf is absent. -/
theorem cpf_overload_padding_witness :
    ("cpf", padStart "123" 11 '0') ∈ ensureContactForm "Ana" "11987654321"
      (some "não informado") (some "123") ∧
    ("cpf", padStart "123" 11 '0')
      ∈ (webhookHandler cfgA envA stEmpty bodyA).trace.updateFieldsSent ∧
    (webhookHandler cfgA envA stEmpty bodyA).trace.updateCalled = true := by
  have h := cpf_overload_padding "Ana" "11987654321" "123" (some "não informado")
    (by decide) cfgA envA stEmpty bodyA "Ana" "11987654321" "123" none none
    42 { user_id := some 7 } "x"
    (by decide) (by decide) (by decide) (by decide) (by decide) (by decide) rfl rfl
  have h2 := h.2.1 (by decide)
  exact ⟨h.1, h2.1, h2.2⟩

end OlxPoli
